/-
  Verification of the LLMChat repository (chatbot.py) against its
  natural-language specification.

  The Python source is shallowly embedded: pure helpers become Lean
  functions, the Streamlit interaction handler becomes an explicit
  state-passing function over a session-state record together with a
  trace of user-visible effects, and the external collaborators
  (requests.get, ollama.chat) become explicit oracles supplied as
  arguments, with failure represented by Except.
-/
import Mathlib

namespace LLMChat

/-! ## Python string.strip

`format_response` (chatbot.py line 94) is `response.strip()` and the
interaction handler tests `user_prompt.strip() != ""` (line 239).
Python str.strip with no argument removes leading and trailing
characters for which str.isspace holds; `pyIsSpace` lists that
character set. -/

def pyIsSpace (c : Char) : Bool :=
  c == ' ' || c == '\t' || c == '\n' || c == '\x0b' || c == '\x0c' || c == '\r' ||
  c == '\x1c' || c == '\x1d' || c == '\x1e' || c == '\x1f' || c == '\x85' ||
  c == '\xa0' || c == '\u1680' ||
  (('\u2000' : Char) ≤ c && c ≤ ('\u200a' : Char)) ||
  c == '\u2028' || c == '\u2029' || c == '\u202f' || c == '\u205f' || c == '\u3000'

/-- Python list-level strip: drop the whitespace prefix, then drop the
whitespace suffix (via reverse). -/
def stripChars (l : List Char) : List Char :=
  ((l.dropWhile pyIsSpace).reverse.dropWhile pyIsSpace).reverse

/-- Python s.strip() on strings. -/
def pyStrip (s : String) : String :=
  String.mk (stripChars s.data)

/-- chatbot.py lines 83-94: format_response returns response.strip(). -/
def format_response (response : String) : String :=
  pyStrip response

/-! ## JSON values and the external oracles

requests.get(...).json() and ollama.chat(...) produce Python
dict/list/str values; `JVal` embeds the fragment of them the code
touches.  d[k] on a dict is `jLookup`; a missing key raises KeyError
(whose str() is the quoted key) and indexing a non-dict raises a
TypeError (whose exact dynamic wording the source does not fix; it is
modelled by a fixed descriptive string). -/

inductive JVal where
  | null : JVal
  | str (s : String) : JVal
  | num (n : Int) : JVal
  | arr (elems : List JVal) : JVal
  | obj (fields : List (String × JVal)) : JVal

def jLookup (v : JVal) (k : String) : Option JVal :=
  match v with
  | .obj fields => fields.lookup k
  | _ => none

/-- str(KeyError(k)) in Python: the key wrapped in single quotes. -/
def keyErrorStr (k : String) : String := "\x27" ++ k ++ "\x27"

/-- Description carried by the TypeError raised when subscripting a
non-dict value; the exact dynamic wording is not fixed by the source. -/
def notSubscriptableMsg : String := "object is not subscriptable"

/-! ## get_available_models (chatbot.py lines 40-54)

requests.get is modelled by a `ProbeOutcome` oracle value: either the
call (or response.json()) raised, or it returned a response with a
status code and a parsed JSON body.  The body of the try-block is
`extractNames`; any exception it raises is caught and turned into []. -/

inductive ProbeOutcome where
  | raises : ProbeOutcome
  | response (status : Nat) (body : Option JVal) : ProbeOutcome

/-- One step of the comprehension at line 51: model -> model of key
name, raising when model is not a dict or lacks the key. -/
def nameOfModel (m : JVal) : Except String JVal :=
  match m with
  | .obj fields =>
    match fields.lookup "name" with
    | some v => Except.ok v
    | none => Except.error (keyErrorStr "name")
  | _ => Except.error notSubscriptableMsg

/-- models_data.get of the models key with default [], followed by the
list comprehension over it, as the body of the try-block at lines
50-51: any step that raises in Python is an Except.error here. -/
def extractNames (models_data : JVal) : Except String (List JVal) := do
  let modelsVal ←
    match models_data with
    | .obj fields => Except.ok ((fields.lookup "models").getD (.arr []))
    | _ => Except.error "no attribute get"
  let elems ←
    match modelsVal with
    | .arr l => Except.ok l
    | _ => Except.error "object is not iterable"
  elems.mapM nameOfModel

/-- chatbot.py lines 40-54. -/
def get_available_models (outcome : ProbeOutcome) : List JVal :=
  match outcome with
  | .raises => []
  | .response status body =>
    if status == 200 then
      match body with
      | none => []
      | some models_data =>
        match extractNames models_data with
        | .ok names => names
        | .error _ => []
    else []

/-- chatbot.py lines 26-38: true iff the probe returned status 200;
false when it raised or returned any other status. -/
def check_ollama_connection (outcome : ProbeOutcome) : Bool :=
  match outcome with
  | .raises => false
  | .response status _ => status == 200

/-! ## generate_llm_response (chatbot.py lines 56-81)

ollama.chat is an oracle `chat` mapping the submitted keyword payload
(model, messages) to either a raised exception (Except.error with the
str() of the exception) or a reply JSON value.  The function returns
both the payload it submitted and its result, so that theorems can
speak about exactly what was sent. -/

structure ChatMessage where
  role : String
  content : String
deriving DecidableEq, Repr

def ollamaMarker : String := "Error communicating with Ollama: "

/-- The body of the try-block at lines 77-79: call ollama.chat, then
project the reply at message, then at content; failures carry the
descriptions of the exceptions Python would raise. -/
def ollamaTryBlock (chat : String → List ChatMessage → Except String JVal)
    (model : String) (messages : List ChatMessage) : Except String JVal :=
  match chat model messages with
  | .error e => .error e
  | .ok response =>
    match response with
    | .obj fields =>
      match fields.lookup "message" with
      | some msg =>
        match msg with
        | .obj mfields =>
          match mfields.lookup "content" with
          | some v => .ok v
          | none => .error (keyErrorStr "content")
        | _ => .error notSubscriptableMsg
      | none => .error (keyErrorStr "message")
    | _ => .error notSubscriptableMsg

/-- chatbot.py lines 56-81.  First component: the payload submitted to
ollama.chat (model and messages, exactly as passed).  Second: the
normal return value, or the re-raised exception with the fixed marker
prefixed to the original description. -/
def generate_llm_response (chat : String → List ChatMessage → Except String JVal)
    (prompt : String) (model : String) :
    (String × List ChatMessage) × Except String JVal :=
  let messages : List ChatMessage := [{ role := "user", content := prompt }]
  ((model, messages),
   match ollamaTryBlock chat model messages with
   | .ok v => .ok v
   | .error e => .error (ollamaMarker ++ e))

/-! ## The interaction handler (main, chatbot.py lines 96-287)

One Streamlit script run is a pure function of
  - the session state persisted across runs (`SessionState`;
    st.session_state keys may be absent, hence Option), and
  - the externally determined inputs of this run (`Env`): the two
    connectivity-probe results, the model list, which widget fired,
    the text-area contents, the ollama.chat outcome for this prompt,
    and the formatted clock time.
It returns the updated session state and the ordered trace of
user-visible effects (`Effect`).  Static page decoration (titles,
dividers, fixed markdown) is not traced; everything state-bearing or
claim-relevant is. -/

structure Turn where
  prompt : String
  response : String
  model : String
  timestamp : String
deriving DecidableEq, Repr

structure SessionState where
  conversation_history : Option (List Turn)
  user_prompt : Option String
deriving DecidableEq, Repr

inductive Effect where
  | errorMsg (s : String) : Effect
  | warnMsg (s : String) : Effect
  | infoMsg (s : String) : Effect
  | successMsg (s : String) : Effect
  | invokeGenerate (prompt : String) (model : String) : Effect
  | showResponse (s : String) : Effect
  | displayTurns (ts : List Turn) : Effect
  | rerun : Effect
deriving DecidableEq, Repr

deriving instance DecidableEq for Except

structure Env where
  conn1 : Bool
  conn2 : Bool
  available_models : List String
  clear_clicked : Bool
  sample_clicked : Option String
  prompt_text : String
  generate_clicked : Bool
  gen_result : Except String String
  timestamp : String
deriving DecidableEq, Repr

/-- chatbot.py line 141: the hard-coded fallback shown when no models
are discoverable. -/
def fallbackModels : List String :=
  ["llama3.2", "llama3.1", "mistral", "codellama", "neural-chat"]

/-- chatbot.py lines 190-195. -/
def samplePrompts : List String :=
  ["Explain quantum computing in simple terms",
   "Write a short story about a robot learning to paint",
   "What are the benefits of renewable energy?",
   "Create a recipe for chocolate chip cookies"]

/-- chatbot.py lines 137-150: the model selection control; the options
are the discovered models, or the fallback list when none were found,
and the default selection is the first option. -/
def selectedModel (env : Env) : String :=
  (if env.available_models.isEmpty then fallbackModels
   else env.available_models).headD "llama3.2"

/-- chatbot.py lines 250-255: the dict appended to the conversation
history after a successful generation. -/
def newTurn (env : Env) (resp : String) : Turn :=
  { prompt := env.prompt_text, response := format_response resp,
    model := selectedModel env, timestamp := env.timestamp }

/-- chatbot.py lines 137-156: the sidebar model warning/status
effects. -/
def sidebarEffects (env : Env) : List Effect :=
  if env.available_models.isEmpty then
    [.warnMsg "No models found. Please pull a model using ollama pull <model_name>",
     .errorMsg "No models available"]
  else
    [.successMsg "model(s) available"]

/-- chatbot.py lines 238-274: the response-generation block.  Takes the
current (initialized) history, returns the new history and the effects
this block emits.  env.gen_result is the oracle outcome of
generate_llm_response(user_prompt, selected_model) for this run. -/
def responseSection (env : Env) (hist : List Turn) : List Turn × List Effect :=
  if env.generate_clicked then
    if pyStrip env.prompt_text ≠ "" then
      match env.gen_result with
      | .ok resp =>
        (hist ++ [newTurn env resp],
         [.invokeGenerate env.prompt_text (selectedModel env),
          .successMsg "Response generated successfully",
          .showResponse (format_response resp)])
      | .error e =>
        (hist,
         [.invokeGenerate env.prompt_text (selectedModel env),
          .errorMsg ("Error generating response: " ++ e),
          .infoMsg "Make sure Ollama is running and the selected model is available."])
    else
      (hist, [.warnMsg "Please enter a prompt to generate a response."])
  else
    (hist, [])

/-- chatbot.py lines 277-286: history display, most recent first. -/
def displaySection (hist : List Turn) : List Effect :=
  if hist.isEmpty then [] else [.displayTurns hist.reverse]

/-- chatbot.py lines 96-287: one run of main.  Control flow, in source
order: first connectivity check (return on failure); sidebar with model
warning/status, the Clear Chat button (st.rerun, which ends the run),
and the sample-prompt buttons (set user_prompt then st.rerun); second
connectivity check (return on failure); conversation_history
initialization if absent; the response-generation block; history
display. -/
def runMain (env : Env) (st : SessionState) : SessionState × List Effect :=
  if env.conn1 = false then
    (st, [.errorMsg "Ollama is not running or not accessible!",
          .infoMsg "Quick Start: Open a new terminal and run these commands:"])
  else
    if env.clear_clicked then
      (st, sidebarEffects env ++ [.rerun])
    else
      match env.sample_clicked with
      | some p => ({ st with user_prompt := some p }, sidebarEffects env ++ [.rerun])
      | none =>
        if env.conn2 = false then
          (st, sidebarEffects env ++ [.errorMsg "Not connected to Ollama"])
        else
          let hist0 := st.conversation_history.getD []
          let res := responseSection env hist0
          ({ conversation_history := some res.1, user_prompt := st.user_prompt },
           sidebarEffects env ++ [.successMsg "Connected to Ollama"] ++ res.2 ++
             displaySection res.1)

/-! ## Concrete oracles, environments and states used by witnesses and
counterexamples -/

/-- An oracle mirroring the success unit test. -/
def chatOk : String → List ChatMessage → Except String JVal :=
  fun _ _ => .ok (.obj [("message", .obj [("content", .str "This is a test response")])])

/-- An oracle that raises, mirroring the error unit test. -/
def chatRaises : String → List ChatMessage → Except String JVal :=
  fun _ _ => .error "Connection error"

def envGenA : Env :=
  { conn1 := true, conn2 := true, available_models := ["llama3.2"],
    clear_clicked := false, sample_clicked := none, prompt_text := "p1",
    generate_clicked := true, gen_result := .ok "r1", timestamp := "10:00:00" }

def envGenB : Env :=
  { envGenA with prompt_text := "p2", gen_result := .ok "r2", timestamp := "10:01:00" }

def envGenErr : Env :=
  { envGenA with gen_result := .error "boom" }

def envBlank : Env :=
  { envGenA with prompt_text := "   " }

def envNoModels : Env :=
  { envGenA with available_models := [], prompt_text := "hi", gen_result := .ok "ok" }

def envDown : Env :=
  { envGenA with conn1 := false, conn2 := false }

def envClear : Env :=
  { envGenA with clear_clicked := true, generate_clicked := false, prompt_text := "" }

def turnP0 : Turn :=
  { prompt := "p0", response := "r0", model := "llama3.2", timestamp := "09:00:00" }

def turn0 : Turn :=
  { prompt := "hi", response := "hello there", model := "llama3.2", timestamp := "12:00:00" }

def stEmpty : SessionState := { conversation_history := some [], user_prompt := none }

def stOne : SessionState := { conversation_history := some [turnP0], user_prompt := none }

def stWithTurn : SessionState := { conversation_history := some [turn0], user_prompt := none }

/-! ## Lemmas about the strip helper -/

theorem stripChars_eq_rdropWhile (l : List Char) :
    stripChars l = List.rdropWhile pyIsSpace (l.dropWhile pyIsSpace) := rfl

theorem dropWhile_head_false {p : Char → Bool} {l t : List Char} {a : Char}
    (h : l.dropWhile p = a :: t) : p a = false := by
  induction l with
  | nil => simp [List.dropWhile] at h
  | cons x xs ih =>
    rw [List.dropWhile_cons] at h
    by_cases hx : p x = true
    · rw [if_pos hx] at h
      exact ih h
    · rw [if_neg hx] at h
      cases h
      simpa using hx

theorem stripChars_dropWhile (l : List Char) :
    (stripChars l).dropWhile pyIsSpace = stripChars l := by
  rw [stripChars_eq_rdropWhile]
  cases h : List.rdropWhile pyIsSpace (l.dropWhile pyIsSpace) with
  | nil => rfl
  | cons a t =>
    have hpre : List.rdropWhile pyIsSpace (l.dropWhile pyIsSpace) <+:
        l.dropWhile pyIsSpace := List.rdropWhile_prefix _ _
    rw [h] at hpre
    obtain ⟨r, hr⟩ := hpre
    have ha : pyIsSpace a = false := dropWhile_head_false (l := l) (t := t ++ r) hr.symm
    rw [List.dropWhile_cons, if_neg (by simp [ha])]

theorem stripChars_rdropWhile (l : List Char) :
    List.rdropWhile pyIsSpace (stripChars l) = stripChars l := by
  rw [stripChars_eq_rdropWhile, List.rdropWhile_idempotent]

theorem stripChars_idem (l : List Char) : stripChars (stripChars l) = stripChars l := by
  rw [stripChars_eq_rdropWhile (stripChars l), stripChars_dropWhile l,
      stripChars_eq_rdropWhile l, List.rdropWhile_idempotent]

theorem stripChars_decomp (l : List Char) :
    ∃ pre suf : List Char, pre.all pyIsSpace ∧ suf.all pyIsSpace ∧
      l = pre ++ stripChars l ++ suf := by
  refine ⟨l.takeWhile pyIsSpace,
    ((l.dropWhile pyIsSpace).reverse.takeWhile pyIsSpace).reverse, ?_, ?_, ?_⟩
  · simp only [List.all_eq_true]
    exact fun x hx => List.mem_takeWhile_imp hx
  · simp only [List.all_eq_true, List.mem_reverse]
    exact fun x hx => List.mem_takeWhile_imp hx
  · have hm : stripChars l ++
        ((l.dropWhile pyIsSpace).reverse.takeWhile pyIsSpace).reverse
        = l.dropWhile pyIsSpace := by
      unfold stripChars
      rw [← List.reverse_append, List.takeWhile_append_dropWhile, List.reverse_reverse]
    rw [List.append_assoc, hm, List.takeWhile_append_dropWhile]

theorem stripChars_eq_nil_iff (l : List Char) :
    stripChars l = [] ↔ ∀ x ∈ l, pyIsSpace x := by
  unfold stripChars
  rw [List.reverse_eq_nil_iff, List.dropWhile_eq_nil_iff]
  constructor
  · intro hfull x hx
    have hsplit := List.takeWhile_append_dropWhile pyIsSpace l
    rw [← hsplit] at hx
    rcases List.mem_append.mp hx with h1 | h2
    · exact List.mem_takeWhile_imp h1
    · exact hfull x (List.mem_reverse.mpr h2)
  · intro hall x hx
    exact hall x ((List.dropWhile_suffix pyIsSpace).mem (List.mem_reverse.mp hx))

theorem pyStrip_eq_empty_iff (s : String) :
    pyStrip s = "" ↔ s.data.all pyIsSpace := by
  rw [List.all_eq_true, ← stripChars_eq_nil_iff]
  constructor
  · intro h
    exact congrArg String.data h
  · intro h
    exact congrArg String.mk h

/-- C7: for every string x, format_response strips only leading and
trailing whitespace (the input is whitespace ++ output ++ whitespace,
and the output carries no further leading or trailing whitespace),
leaving internal whitespace and newlines intact; in particular the
three concrete examples from the spec hold. -/
theorem format_response_strips_only_outer_whitespace :
    (∀ x : String, ∃ pre suf : List Char,
        pre.all pyIsSpace ∧ suf.all pyIsSpace ∧
        x.data = pre ++ (format_response x).data ++ suf ∧
        (format_response x).data.dropWhile pyIsSpace = (format_response x).data ∧
        List.rdropWhile pyIsSpace (format_response x).data = (format_response x).data) ∧
    format_response " x " = "x" ∧ format_response "" = "" ∧
    format_response "  a\n  b  " = "a\n  b" := by
  refine ⟨fun x => ?_, by decide, by decide, by decide⟩
  obtain ⟨pre, suf, h1, h2, h3⟩ := stripChars_decomp x.data
  exact ⟨pre, suf, h1, h2, h3, stripChars_dropWhile x.data, stripChars_rdropWhile x.data⟩

/-- C8: format_response is idempotent. -/
theorem format_response_idempotent (x : String) :
    format_response (format_response x) = format_response x :=
  congrArg String.mk (stripChars_idem x.data)

/-! ## Claims about the generator and the probe -/

/-- C3: for every oracle, prompt P and model m, generate_llm_response
submits exactly the payload model = m and a single user message with
content P, and when the endpoint replies with content R under the
message key it returns R. -/
theorem generate_llm_response_payload_and_success
    (chat : String → List ChatMessage → Except String JVal) (P m : String) :
    (generate_llm_response chat P m).1 = (m, [{ role := "user", content := P }]) ∧
    (∀ R : String,
      chat m [{ role := "user", content := P }] =
        .ok (.obj [("message", .obj [("content", .str R)])]) →
      (generate_llm_response chat P m).2 = .ok (.str R)) := by
  refine ⟨rfl, fun R h => ?_⟩
  simp [generate_llm_response, ollamaTryBlock, h]

/-- Witness for C3: the concrete oracle mirroring the unit test. -/
theorem generate_llm_response_payload_and_success_witness :
    (generate_llm_response chatOk "Test prompt" "llama2").1 =
      ("llama2", [{ role := "user", content := "Test prompt" }]) ∧
    (generate_llm_response chatOk "Test prompt" "llama2").2 =
      .ok (.str "This is a test response") :=
  ⟨(generate_llm_response_payload_and_success chatOk "Test prompt" "llama2").1,
   (generate_llm_response_payload_and_success chatOk "Test prompt" "llama2").2
     "This is a test response" rfl⟩

/-- C4: generate_llm_response fails exactly when the try-block fails
(transport error, or malformed/missing reply structure), and then its
message is the original failure description prefixed with the fixed
marker; when the try-block succeeds it returns the content and does not
fail. -/
theorem generate_llm_response_error_wrapping
    (chat : String → List ChatMessage → Except String JVal) (P m : String) :
    (∀ e, ollamaTryBlock chat m [{ role := "user", content := P }] = .error e →
        (generate_llm_response chat P m).2 = .error (ollamaMarker ++ e)) ∧
    (∀ v, ollamaTryBlock chat m [{ role := "user", content := P }] = .ok v →
        (generate_llm_response chat P m).2 = .ok v) ∧
    (∀ e, chat m [{ role := "user", content := P }] = .error e →
        ollamaTryBlock chat m [{ role := "user", content := P }] = .error e) ∧
    (∀ r, chat m [{ role := "user", content := P }] = .ok r →
        jLookup r "message" = none →
        ∃ d, ollamaTryBlock chat m [{ role := "user", content := P }] = .error d) := by
  refine ⟨fun e h => ?_, fun v h => ?_, fun e h => ?_, fun r h hmiss => ?_⟩
  · simp [generate_llm_response, h]
  · simp [generate_llm_response, h]
  · simp [ollamaTryBlock, h]
  · cases r with
    | obj fields =>
      have : fields.lookup "message" = none := by simpa [jLookup] using hmiss
      exact ⟨keyErrorStr "message", by simp [ollamaTryBlock, h, this]⟩
    | null => exact ⟨notSubscriptableMsg, by simp [ollamaTryBlock, h]⟩
    | str s => exact ⟨notSubscriptableMsg, by simp [ollamaTryBlock, h]⟩
    | num n => exact ⟨notSubscriptableMsg, by simp [ollamaTryBlock, h]⟩
    | arr l => exact ⟨notSubscriptableMsg, by simp [ollamaTryBlock, h]⟩

/-- Witness for C4: with the concrete raising oracle of the unit test,
the wrapped message carries the marker and the original text. -/
theorem generate_llm_response_error_wrapping_witness :
    (generate_llm_response chatRaises "Test prompt" "llama2").2 =
      .error (ollamaMarker ++ "Connection error") :=
  (generate_llm_response_error_wrapping chatRaises "Test prompt" "llama2").1
    "Connection error"
    ((generate_llm_response_error_wrapping chatRaises "Test prompt" "llama2").2.2.1
      "Connection error" rfl)

/-- C5: get_available_models returns the parsed names on a well-formed
200 response, and the empty list whenever the call raised, the status
is not 200, response.json() raised, or the body fails to parse; being a
total function it never raises. -/
theorem get_available_models_degrades_to_empty :
    (∀ body names, extractNames body = .ok names →
        get_available_models (.response 200 (some body)) = names) ∧
    get_available_models .raises = [] ∧
    (∀ status body, status ≠ 200 → get_available_models (.response status body) = []) ∧
    (∀ status, get_available_models (.response status none) = []) ∧
    (∀ body e, extractNames body = .error e →
        get_available_models (.response 200 (some body)) = []) := by
  refine ⟨fun body names h => ?_, rfl, fun status body h => ?_, fun status => ?_,
    fun body e h => ?_⟩
  · simp [get_available_models, h]
  · simp [get_available_models, h]
  · simp [get_available_models]
  · simp [get_available_models, h]

/-- Witness for C5: a concrete well-formed 200 body yields the names; a
404 yields the empty list. -/
theorem get_available_models_degrades_to_empty_witness :
    get_available_models (.response 200 (some (.obj [("models",
        .arr [.obj [("name", .str "llama3.2")], .obj [("name", .str "mistral")]])])))
      = [.str "llama3.2", .str "mistral"] ∧
    get_available_models (.response 404 none) = [] :=
  ⟨get_available_models_degrades_to_empty.1 _ _ rfl,
   get_available_models_degrades_to_empty.2.2.1 404 none (by decide)⟩

/-! ## Lemmas about the interaction handler -/

/-- Normal-path shape of a run: first probe up, no sidebar button
fired, second probe up.  The run reaches the response-generation block
and the history display. -/
theorem runMain_main_path (env : Env) (st : SessionState)
    (hc1 : env.conn1 = true) (hcl : env.clear_clicked = false)
    (hs : env.sample_clicked = none) (hc2 : env.conn2 = true) :
    runMain env st =
      ({ conversation_history :=
           some (responseSection env (st.conversation_history.getD [])).1,
         user_prompt := st.user_prompt },
       sidebarEffects env ++ [.successMsg "Connected to Ollama"] ++
       (responseSection env (st.conversation_history.getD [])).2 ++
       displaySection (responseSection env (st.conversation_history.getD [])).1) := by
  unfold runMain
  rw [hc1, hcl, hs, hc2]
  simp

theorem responseSection_ok (env : Env) (hist : List Turn) (resp : String)
    (hg : env.generate_clicked = true) (hp : pyStrip env.prompt_text ≠ "")
    (hr : env.gen_result = .ok resp) :
    responseSection env hist =
      (hist ++ [newTurn env resp],
       [.invokeGenerate env.prompt_text (selectedModel env),
        .successMsg "Response generated successfully",
        .showResponse (format_response resp)]) := by
  unfold responseSection
  rw [hg, hr, if_pos rfl, if_pos hp]

theorem responseSection_err (env : Env) (hist : List Turn) (e : String)
    (hg : env.generate_clicked = true) (hp : pyStrip env.prompt_text ≠ "")
    (hr : env.gen_result = .error e) :
    responseSection env hist =
      (hist,
       [.invokeGenerate env.prompt_text (selectedModel env),
        .errorMsg ("Error generating response: " ++ e),
        .infoMsg "Make sure Ollama is running and the selected model is available."]) := by
  unfold responseSection
  rw [hg, hr, if_pos rfl, if_pos hp]

theorem responseSection_blank (env : Env) (hist : List Turn)
    (hg : env.generate_clicked = true) (hp : pyStrip env.prompt_text = "") :
    responseSection env hist =
      (hist, [.warnMsg "Please enter a prompt to generate a response."]) := by
  unfold responseSection
  rw [hg, if_pos rfl, if_neg (fun hne => hne hp)]

/-! ## Claims about the interaction handler -/

/-- C6: during a successful generation run the handler appends exactly
one turn at the end of the stored history, leaving every existing turn
in place and in order, and the display layer presents the reversal of
the stored order without changing it. -/
theorem conversation_history_append_only
    (env : Env) (st : SessionState) (h : List Turn) (resp : String)
    (hc1 : env.conn1 = true) (hcl : env.clear_clicked = false)
    (hs : env.sample_clicked = none) (hc2 : env.conn2 = true)
    (hh : st.conversation_history = some h)
    (hg : env.generate_clicked = true) (hp : pyStrip env.prompt_text ≠ "")
    (hr : env.gen_result = .ok resp) :
    (runMain env st).1.conversation_history = some (h ++ [newTurn env resp]) ∧
    Effect.displayTurns (h ++ [newTurn env resp]).reverse ∈ (runMain env st).2 := by
  have hrs := responseSection_ok env h resp hg hp hr
  rw [runMain_main_path env st hc1 hcl hs hc2]
  simp only [hh, Option.getD_some, hrs]
  refine ⟨trivial, ?_⟩
  have hd : displaySection (h ++ [newTurn env resp]) =
      [.displayTurns (h ++ [newTurn env resp]).reverse] := by
    unfold displaySection
    rw [if_neg (by simp)]
  rw [hd]
  simp

/-- Witness for C6: two consecutive successful generation runs starting
from the empty history produce the two turns in creation order, and the
second run displays them most recent first. -/
theorem conversation_history_append_only_witness :
    (runMain envGenA stEmpty).1.conversation_history =
      some ([] ++ [newTurn envGenA "r1"]) ∧
    (runMain envGenB (runMain envGenA stEmpty).1).1.conversation_history =
      some (([] ++ [newTurn envGenA "r1"]) ++ [newTurn envGenB "r2"]) ∧
    Effect.displayTurns (([] ++ [newTurn envGenA "r1"]) ++ [newTurn envGenB "r2"]).reverse
      ∈ (runMain envGenB (runMain envGenA stEmpty).1).2 := by
  have h1 := conversation_history_append_only envGenA stEmpty [] "r1"
    rfl rfl rfl rfl rfl rfl (by decide) rfl
  have h2 := conversation_history_append_only envGenB (runMain envGenA stEmpty).1
    ([] ++ [newTurn envGenA "r1"]) "r2"
    rfl rfl rfl rfl h1.1 rfl (by decide) rfl
  exact ⟨h1.1, h2.1, h2.2⟩

/-- C9: when the generation call fails, the handler leaves the session
state, in particular the conversation history, unchanged, and surfaces
the failure as an error message instead of recording a turn. -/
theorem generation_failure_leaves_history_unchanged
    (env : Env) (st : SessionState) (h : List Turn) (e : String)
    (hc1 : env.conn1 = true) (hcl : env.clear_clicked = false)
    (hs : env.sample_clicked = none) (hc2 : env.conn2 = true)
    (hh : st.conversation_history = some h)
    (hg : env.generate_clicked = true) (hp : pyStrip env.prompt_text ≠ "")
    (hr : env.gen_result = .error e) :
    (runMain env st).1 = st ∧
    Effect.errorMsg ("Error generating response: " ++ e) ∈ (runMain env st).2 := by
  have hrs := responseSection_err env h e hg hp hr
  rw [runMain_main_path env st hc1 hcl hs hc2]
  simp only [hh, Option.getD_some, hrs]
  constructor
  · cases st with
    | mk ch up =>
      simp only at hh
      rw [hh]
  · simp

/-- Witness for C9: a concrete failing generation run over a one-turn
history. -/
theorem generation_failure_leaves_history_unchanged_witness :
    (runMain envGenErr stOne).1 = stOne ∧
    Effect.errorMsg ("Error generating response: " ++ "boom") ∈
      (runMain envGenErr stOne).2 :=
  generation_failure_leaves_history_unchanged envGenErr stOne [turnP0] "boom"
    rfl rfl rfl rfl rfl rfl (by decide) rfl

/-- C10: submitting a prompt that is empty or consists only of
whitespace triggers no generation call, the generation block emits
exactly one warning, and the session state, including the conversation
history, is unchanged. -/
theorem blank_prompt_no_generation
    (env : Env) (st : SessionState) (h : List Turn)
    (hc1 : env.conn1 = true) (hcl : env.clear_clicked = false)
    (hs : env.sample_clicked = none) (hc2 : env.conn2 = true)
    (hh : st.conversation_history = some h)
    (hg : env.generate_clicked = true)
    (hp : env.prompt_text.data.all pyIsSpace) :
    (runMain env st).1 = st ∧
    responseSection env h =
      (h, [.warnMsg "Please enter a prompt to generate a response."]) ∧
    (∀ p m, Effect.invokeGenerate p m ∉ (runMain env st).2) := by
  have hps : pyStrip env.prompt_text = "" := (pyStrip_eq_empty_iff _).mpr hp
  have hrs := responseSection_blank env h hg hps
  refine ⟨?_, hrs, ?_⟩
  · rw [runMain_main_path env st hc1 hcl hs hc2]
    simp only [hh, Option.getD_some, hrs]
    cases st with
    | mk ch up =>
      simp only at hh
      rw [hh]
  · intro p m
    rw [runMain_main_path env st hc1 hcl hs hc2]
    simp only [hh, Option.getD_some, hrs]
    unfold sidebarEffects displaySection
    by_cases hm : env.available_models.isEmpty <;>
      by_cases hd : (h : List Turn).isEmpty <;>
        simp [hm, hd]

/-- Witness for C10: a concrete whitespace-only submission over a
one-turn history. -/
theorem blank_prompt_no_generation_witness :
    (runMain envBlank stOne).1 = stOne ∧
    responseSection envBlank [turnP0] =
      ([turnP0], [.warnMsg "Please enter a prompt to generate a response."]) ∧
    (∀ p m, Effect.invokeGenerate p m ∉ (runMain envBlank stOne).2) :=
  blank_prompt_no_generation envBlank stOne [turnP0]
    rfl rfl rfl rfl rfl rfl (by decide)

/-- Counterexample to C2 as stated: a run in which the probe lists no
models (available_models is empty, as get_available_models yields on an
empty body) but the server is reachable; the handler still invokes the
generator with the fallback model. -/
theorem no_models_does_not_block_generation :
    get_available_models (.response 200 (some (.obj [("models", .arr [])]))) = [] ∧
    envNoModels.available_models = [] ∧
    Effect.invokeGenerate "hi" "llama3.2" ∈ (runMain envNoModels stEmpty).2 := by
  refine ⟨rfl, rfl, ?_⟩
  decide

/-- C2 amended: whenever the first connectivity check fails, the
handler surfaces the blocking instructional message and never invokes
the generator; whenever either connectivity check fails, the generator
is never invoked in that run. -/
theorem unreachable_server_blocks_generation (env : Env) (st : SessionState)
    (hor : env.conn1 = false ∨ env.conn2 = false) :
    (∀ p m, Effect.invokeGenerate p m ∉ (runMain env st).2) ∧
    (env.conn1 = false →
      Effect.errorMsg "Ollama is not running or not accessible!" ∈ (runMain env st).2) := by
  unfold runMain
  by_cases h1 : env.conn1 = false
  · rw [if_pos h1]
    refine ⟨fun p m => ?_, fun _ => ?_⟩
    · simp
    · simp
  · rw [if_neg h1]
    have h2 : env.conn2 = false := hor.resolve_left h1
    refine ⟨fun p m => ?_, fun hfalse => absurd hfalse h1⟩
    unfold sidebarEffects
    by_cases hm : env.available_models.isEmpty <;>
      by_cases hcl : env.clear_clicked = true <;>
        rcases hsm : env.sample_clicked with _ | q <;>
          simp [hm, hcl, h2, hsm]

/-- Witness for C2 amended: with both probes down, the instructional
error is shown and the generator is not invoked. -/
theorem unreachable_server_blocks_generation_witness :
    Effect.invokeGenerate "p1" "llama3.2" ∉ (runMain envDown stEmpty).2 ∧
    Effect.errorMsg "Ollama is not running or not accessible!" ∈
      (runMain envDown stEmpty).2 :=
  ⟨(unreachable_server_blocks_generation envDown stEmpty (Or.inl rfl)).1 "p1" "llama3.2",
   (unreachable_server_blocks_generation envDown stEmpty (Or.inl rfl)).2 rfl⟩

/-- C1 (the code does not clear): clicking Clear Chat only issues
st.rerun; the conversation history in the session state persists across
the rerun, so the log still holds its turn and is not the empty
sequence. -/
theorem clear_chat_does_not_empty_history :
    Effect.rerun ∈ (runMain envClear stWithTurn).2 ∧
    (runMain envClear stWithTurn).1.conversation_history = some [turn0] ∧
    some [turn0] ≠ some ([] : List Turn) := by
  decide

end LLMChat
